import Mathlib

/-!
Shallow embedding of `example/windows/datePickerTest/App.cpp`.

The source is the constructor `App::App() noexcept`, a straight-line
sequence of configuration-setter calls whose branches are the two
preprocessor selectors `BUNDLE` and `_DEBUG`.  We model the constructor
body as a list of events (one per statement of the source, with the
preprocessor selectors as booleans), the application state as a record
of the configuration fields the setters touch, and execution as a left
fold of a `step` function over the event list.
-/

/-- Package-provider handles appended to `PackageProviders()`:
`make<ReactPackageProvider>()` (the project's own provider) and
`winrt::DateTimePicker::ReactPackageProvider()` (the third-party one). -/
inductive Provider where
  | projectReactPackageProvider
  | dateTimePickerReactPackageProvider
deriving DecidableEq, Repr

/-- One event per statement of the constructor body of `App::App`. -/
inductive Event where
  | mainComponentName (s : String)
  | javaScriptBundleFile (s : String)
  | javaScriptMainModuleName (s : String)
  | useWebDebugger (b : Bool)
  | useFastRefresh (b : Bool)
  | enableDeveloperMenu (b : Bool)
  | appendPackageProvider (p : Provider)
  | registerNativeModulePackages
  | initializeComponent
deriving DecidableEq, Repr

/-- The application configuration state written by the constructor.
Setter targets start unset (`none`, resp. the empty provider list). -/
structure Config where
  mainComponentName : Option String := none
  javaScriptBundleFile : Option String := none
  javaScriptMainModuleName : Option String := none
  useWebDebugger : Option Bool := none
  useFastRefresh : Option Bool := none
  enableDeveloperMenu : Option Bool := none
  packageProviders : List Provider := []
  nativeModulePackagesRegistered : Bool := false
  componentInitialized : Bool := false
deriving DecidableEq, Repr

/-- Effect of one statement on the configuration state. -/
def step (c : Config) : Event → Config
  | .mainComponentName s => { c with mainComponentName := some s }
  | .javaScriptBundleFile s => { c with javaScriptBundleFile := some s }
  | .javaScriptMainModuleName s => { c with javaScriptMainModuleName := some s }
  | .useWebDebugger b => { c with useWebDebugger := some b }
  | .useFastRefresh b => { c with useFastRefresh := some b }
  | .enableDeveloperMenu b => { c with enableDeveloperMenu := some b }
  | .appendPackageProvider p =>
      { c with packageProviders := c.packageProviders ++ [p] }
  | .registerNativeModulePackages =>
      { c with nativeModulePackagesRegistered := true }
  | .initializeComponent => { c with componentInitialized := true }

/-- The statement sequence of `App::App() noexcept`, with the
preprocessor selectors `BUNDLE` and `_DEBUG` as booleans.  One event per
source statement, in source order (`App.cpp`, lines 21 to 43). -/
def appCtorTrace (bundle dbg : Bool) : List Event :=
  [Event.mainComponentName "example"] ++
  (if bundle then
    [Event.javaScriptBundleFile "index.windows",
     Event.useWebDebugger false,
     Event.useFastRefresh false]
  else
    [Event.javaScriptMainModuleName "example/index",
     Event.useWebDebugger true,
     Event.useFastRefresh true]) ++
  [Event.enableDeveloperMenu dbg] ++
  [Event.appendPackageProvider Provider.projectReactPackageProvider,
   Event.appendPackageProvider Provider.dateTimePickerReactPackageProvider,
   Event.registerNativeModulePackages,
   Event.initializeComponent]

/-- Run a statement sequence from a configuration state. -/
def runEvents (c : Config) (t : List Event) : Config :=
  t.foldl step c

/-- The configuration produced by `App::App` (the spec's `initialize()`),
as a function of the two build-time selectors. -/
def appInit (bundle dbg : Bool) : Config :=
  runEvents {} (appCtorTrace bundle dbg)

/-- All states reached during the constructor, in order: the initial
state followed by the state after each statement. -/
def appStates (bundle dbg : Bool) : List Config :=
  List.scanl step {} (appCtorTrace bundle dbg)

/-- Exactly one of the bundle name and the development module path is
set in the configuration. -/
def exactlyOneBundleSource (c : Config) : Bool :=
  c.javaScriptBundleFile.isSome != c.javaScriptMainModuleName.isSome

/-- The event is a provider-list append. -/
def isProviderAppend : Event → Bool
  | .appendPackageProvider _ => true
  | _ => false

/-- Names of the configuration fields written by setter calls. -/
inductive ConfigField where
  | mainComponentName
  | javaScriptBundleFile
  | javaScriptMainModuleName
  | useWebDebugger
  | useFastRefresh
  | enableDeveloperMenu
deriving DecidableEq, Repr

/-- The configuration field a statement writes, if any. -/
def eventTarget : Event → Option ConfigField
  | .mainComponentName _ => some ConfigField.mainComponentName
  | .javaScriptBundleFile _ => some ConfigField.javaScriptBundleFile
  | .javaScriptMainModuleName _ => some ConfigField.javaScriptMainModuleName
  | .useWebDebugger _ => some ConfigField.useWebDebugger
  | .useFastRefresh _ => some ConfigField.useFastRefresh
  | .enableDeveloperMenu _ => some ConfigField.enableDeveloperMenu
  | _ => none

/-- Read a configuration field (string fields on the left, boolean
fields on the right). -/
def getField (c : Config) : ConfigField → Option (String ⊕ Bool)
  | .mainComponentName => c.mainComponentName.map Sum.inl
  | .javaScriptBundleFile => c.javaScriptBundleFile.map Sum.inl
  | .javaScriptMainModuleName => c.javaScriptMainModuleName.map Sum.inl
  | .useWebDebugger => c.useWebDebugger.map Sum.inr
  | .useFastRefresh => c.useFastRefresh.map Sum.inr
  | .enableDeveloperMenu => c.enableDeveloperMenu.map Sum.inr

/-- C1: with the release-bundle selector set, after the constructor runs
the bundle name is the fixed literal "index.windows", the web-debugger
flag is false, and the fast-refresh (live-reload) flag is false, for
either setting of the debug selector. -/
theorem c1_release_bundle_config :
    ∀ dbg : Bool,
      (appInit true dbg).javaScriptBundleFile = some "index.windows" ∧
      (appInit true dbg).useWebDebugger = some false ∧
      (appInit true dbg).useFastRefresh = some false := by
  decide

/-- C2: with the release-bundle selector unset, after the constructor
runs the development module path is the fixed literal "example/index",
the web-debugger flag is true, and the fast-refresh (live-reload) flag
is true, for either setting of the debug selector. -/
theorem c2_development_config :
    ∀ dbg : Bool,
      (appInit false dbg).javaScriptMainModuleName = some "example/index" ∧
      (appInit false dbg).useWebDebugger = some true ∧
      (appInit false dbg).useFastRefresh = some true := by
  decide

/-- C3: for every setting of both selectors, the developer-menu flag
after the constructor runs equals the debug selector: true when the
debug flag is set and false when it is unset. -/
theorem c3_developer_menu :
    ∀ bundle dbg : Bool,
      (appInit bundle dbg).enableDeveloperMenu = some dbg := by
  decide

/-- C4: for every setting of both selectors, the provider list after
initialization contains exactly the project's own provider followed by
the third-party date/time-picker provider, in that order. -/
theorem c4_provider_list :
    ∀ bundle dbg : Bool,
      (appInit bundle dbg).packageProviders =
        [Provider.projectReactPackageProvider,
         Provider.dateTimePickerReactPackageProvider] := by
  decide

/-- C5: in every state reached during and after the constructor, once
the bundle-selection statement (the second statement) has run, exactly
one of the bundle name and the development module path is set, for
every setting of both selectors. -/
theorem c5_bundle_source_exclusive :
    ∀ bundle dbg : Bool,
      ∀ c ∈ (appStates bundle dbg).drop 2,
        exactlyOneBundleSource c = true := by
  decide

/-- C6: for every setting of both selectors, the host-framework
component-initialization call occurs exactly once in the constructor
and is its last statement, so it runs strictly after every
configuration write, every provider append and the generated
registration step, and nothing follows it. -/
theorem c6_component_initialization_last :
    ∀ bundle dbg : Bool,
      (appCtorTrace bundle dbg).count Event.initializeComponent = 1 ∧
      (appCtorTrace bundle dbg).getLast? = some Event.initializeComponent := by
  decide

/-- C7: for every setting of both selectors, the generated
native-module-package registration step (a parameterless event) occurs
exactly once in the constructor, strictly after every provider-list
append and strictly before the component-initialization call. -/
theorem c7_registration_position :
    ∀ bundle dbg : Bool,
      (appCtorTrace bundle dbg).count Event.registerNativeModulePackages = 1 ∧
      ∀ i : Fin (appCtorTrace bundle dbg).length,
        (appCtorTrace bundle dbg).get i = Event.registerNativeModulePackages →
        ∀ j : Fin (appCtorTrace bundle dbg).length,
          (isProviderAppend ((appCtorTrace bundle dbg).get j) = true →
            j.val < i.val) ∧
          ((appCtorTrace bundle dbg).get j = Event.initializeComponent →
            i.val < j.val) := by
  decide

/-- C8: the constructor is deterministic: for a fixed setting of the two
build-time selectors, any two runs produce identical configurations
(same entry-point identifier, same bundle and module selection, same
three boolean flags, same ordered provider list). -/
theorem c8_deterministic :
    ∀ (bundle dbg : Bool) (c₁ c₂ : Config),
      c₁ = appInit bundle dbg → c₂ = appInit bundle dbg →
      c₁.mainComponentName = c₂.mainComponentName ∧
      c₁.javaScriptBundleFile = c₂.javaScriptBundleFile ∧
      c₁.javaScriptMainModuleName = c₂.javaScriptMainModuleName ∧
      c₁.useWebDebugger = c₂.useWebDebugger ∧
      c₁.useFastRefresh = c₂.useFastRefresh ∧
      c₁.enableDeveloperMenu = c₂.enableDeveloperMenu ∧
      c₁.packageProviders = c₂.packageProviders := by
  rintro bundle dbg c₁ c₂ rfl rfl
  exact ⟨rfl, rfl, rfl, rfl, rfl, rfl, rfl⟩

/-- C8 witness: determinism instantiated at the release-bundle, debug
configuration. -/
theorem c8_deterministic_witness :
    (appInit true true).mainComponentName = (appInit true true).mainComponentName ∧
    (appInit true true).javaScriptBundleFile = (appInit true true).javaScriptBundleFile ∧
    (appInit true true).javaScriptMainModuleName = (appInit true true).javaScriptMainModuleName ∧
    (appInit true true).useWebDebugger = (appInit true true).useWebDebugger ∧
    (appInit true true).useFastRefresh = (appInit true true).useFastRefresh ∧
    (appInit true true).enableDeveloperMenu = (appInit true true).enableDeveloperMenu ∧
    (appInit true true).packageProviders = (appInit true true).packageProviders :=
  c8_deterministic true true (appInit true true) (appInit true true) rfl rfl

/-- C9: every configuration field is written at most once during the
constructor (for every setting of both selectors), and every statement
leaves every configuration field it does not target unchanged; the
constructor is the whole authored startup code, so no later operation
touches the configuration. -/
theorem c9_write_once_frame :
    (∀ bundle dbg : Bool, ∀ f : ConfigField,
      ((appCtorTrace bundle dbg).countP
        (fun e => decide (eventTarget e = some f))) ≤ 1) ∧
    (∀ (c : Config) (e : Event) (f : ConfigField),
      eventTarget e ≠ some f → getField (step c e) f = getField c f) := by
  constructor
  · intro bundle dbg f
    cases bundle <;> cases dbg <;> cases f <;> decide
  · intro c e f h
    cases e <;> cases f <;> simp_all [eventTarget, step, getField]

/-- C9 witness: a debugger-flag write leaves the fast-refresh field of
the empty configuration unchanged. -/
theorem c9_write_once_frame_witness :
    eventTarget (Event.useWebDebugger true) ≠ some ConfigField.useFastRefresh ∧
    getField (step {} (Event.useWebDebugger true)) ConfigField.useFastRefresh =
      getField {} ConfigField.useFastRefresh :=
  ⟨by decide,
   c9_write_once_frame.2 {} (Event.useWebDebugger true)
     ConfigField.useFastRefresh (by decide)⟩

/-- C10: for every setting of both selectors, the web-debugger flag and
the fast-refresh (live-reload) flag in the resulting configuration are
equal. -/
theorem c10_debugger_equals_fast_refresh :
    ∀ bundle dbg : Bool,
      (appInit bundle dbg).useWebDebugger = (appInit bundle dbg).useFastRefresh := by
  decide

/-- C5 witness: the final state of the release-bundle, non-debug run is
among the states after the bundle-selection statement and has exactly
one bundle source set. -/
theorem c5_bundle_source_exclusive_witness :
    appInit true false ∈ (appStates true false).drop 2 ∧
    exactlyOneBundleSource (appInit true false) = true :=
  ⟨by decide,
   c5_bundle_source_exclusive true false (appInit true false) (by decide)⟩
